import Mathlib

/-!
Verification development for the TheBridge repository (hevy_workout stack).

The definitions below are a shallow embedding of the Python sources under
src/hevy_workout/lambda/.  External effects (the language model, the Slack
postMessage call, the Hevy data fetches, the environment) are injected as
explicit parameters; fallible calls are values of `Except String _`, matching
the Python code where those calls raise.  Machine time is injected as a `Nat`
clock value: the code stores ISO-8601 UTC timestamp strings of fixed width,
whose lexicographic order coincides with chronological order, so timestamps
are embedded as natural numbers.  The DynamoDB conversation table is embedded
as a list of records in which each thread partition is kept sorted by sort
key, and `put_item` overwrites an item that has the same (partition, sort)
key, exactly as DynamoDB does.
-/

/-- One item of the DynamoDB conversation table
(`thread_id` partition key, `timestamp` sort key).  `user_id` is optional
because only some writers set it (the events handler and the workout
planning agent do, the weekly goals and daily planner agents do not). -/
structure Record where
  thread_id : String
  timestamp : Nat
  user_id : Option String
  role : String
  message_text : String
  agent : String
  expires_at : Nat
deriving Repr, DecidableEq

/-- A `{role, content}` entry as returned by the get_history functions. -/
structure MessagesEntry where
  role : String
  content : String
deriving Repr, DecidableEq

/-- A chat.postMessage call: channel, text and the optional thread_ts
(absent for a thread-starting post). -/
structure SlackPost where
  channel : String
  text : String
  thread_ts : Option String
deriving Repr, DecidableEq

/-- A document artifact in the object store (weekly-goal doc or coach doc). -/
structure GoalDoc where
  title : String
  content : String
deriving Repr, DecidableEq

/-- DynamoDB `put_item` on the conversation table.  Within a thread partition
the items are kept sorted by the `timestamp` sort key; a put whose
(thread_id, timestamp) key already exists overwrites that item. -/
def putItem : List Record → Record → List Record
  | [], r => [r]
  | x :: xs, r =>
    if x.thread_id = r.thread_id then
      if x.timestamp = r.timestamp then r :: xs
      else if r.timestamp < x.timestamp then r :: x :: xs
      else x :: putItem xs r
    else x :: putItem xs r

/-- DynamoDB `query` on the conversation table with
`KeyConditionExpression thread_id = :t` and `ScanIndexForward=True`:
all items of the partition in ascending sort-key order. -/
def queryAsc (tbl : List Record) (t : String) : List Record :=
  tbl.filter (fun r => r.thread_id == t)

theorem queryAsc_nil (t : String) : queryAsc [] t = [] := rfl

theorem queryAsc_cons (x : Record) (xs : List Record) (t : String) :
    queryAsc (x :: xs) t =
      if x.thread_id = t then x :: queryAsc xs t else queryAsc xs t := by
  by_cases h : x.thread_id = t <;> simp [queryAsc, h]

theorem queryAsc_eq_nil (tbl : List Record) (t : String)
    (h : ∀ r ∈ tbl, r.thread_id ≠ t) : queryAsc tbl t = [] := by
  induction tbl with
  | nil => rfl
  | cons x xs ih =>
    rw [queryAsc_cons]
    have hx := h x (List.mem_cons_self x xs)
    simp only [hx, if_false]
    exact ih (fun r hr => h r (List.mem_cons_of_mem x hr))

theorem mem_putItem (tbl : List Record) (r y : Record)
    (hy : y ∈ putItem tbl r) : y ∈ tbl ∨ y = r := by
  induction tbl with
  | nil =>
    simp only [putItem, List.mem_singleton] at hy
    exact Or.inr hy
  | cons x xs ih =>
    by_cases h1 : x.thread_id = r.thread_id
    · by_cases h2 : x.timestamp = r.timestamp
      · simp only [putItem, h1, h2, if_true] at hy
        rcases List.mem_cons.mp hy with h | h
        · exact Or.inr h
        · exact Or.inl (List.mem_cons_of_mem x h)
      · by_cases h3 : r.timestamp < x.timestamp
        · simp only [putItem, h1, h2, h3, if_true, if_false] at hy
          rcases List.mem_cons.mp hy with h | h
          · exact Or.inr h
          · exact Or.inl h
        · simp only [putItem, h1, h2, h3, if_true, if_false] at hy
          rcases List.mem_cons.mp hy with h | h
          · exact Or.inl (h ▸ List.mem_cons_self x xs)
          · rcases ih h with h' | h'
            · exact Or.inl (List.mem_cons_of_mem x h')
            · exact Or.inr h'
    · simp only [putItem, h1, if_false] at hy
      rcases List.mem_cons.mp hy with h | h
      · exact Or.inl (h ▸ List.mem_cons_self x xs)
      · rcases ih h with h' | h'
        · exact Or.inl (List.mem_cons_of_mem x h')
        · exact Or.inr h'

/-- Putting a record whose timestamp is strictly larger than that of every
record already stored for its thread appends it at the end of the
partition, as seen through an ascending query. -/
theorem queryAsc_putItem_last (tbl : List Record) (r : Record) (t : String)
    (hrt : r.thread_id = t)
    (h : ∀ x ∈ tbl, x.thread_id = t → x.timestamp < r.timestamp) :
    queryAsc (putItem tbl r) t = queryAsc tbl t ++ [r] := by
  induction tbl with
  | nil => simp [putItem, queryAsc_cons, queryAsc_nil, hrt]
  | cons x xs ih =>
    by_cases h1 : x.thread_id = r.thread_id
    · have hxt : x.thread_id = t := h1.trans hrt
      have hlt : x.timestamp < r.timestamp := h x (List.mem_cons_self x xs) hxt
      have h2 : ¬ x.timestamp = r.timestamp := Nat.ne_of_lt hlt
      have h3 : ¬ r.timestamp < x.timestamp := Nat.lt_asymm hlt
      simp only [putItem, h1, h2, h3, if_true, if_false]
      rw [queryAsc_cons, queryAsc_cons]
      simp only [hxt, if_true]
      rw [ih (fun y hy hyt => h y (List.mem_cons_of_mem x hy) hyt)]
      simp
    · have hxt : ¬ x.thread_id = t := fun hx => h1 (hx.trans hrt.symm)
      simp only [putItem, h1, if_false]
      rw [queryAsc_cons, queryAsc_cons]
      simp only [hxt, if_false]
      exact ih (fun y hy hyt => h y (List.mem_cons_of_mem x hy) hyt)

/-- Python `str.strip()` on a character list: drop leading and trailing
whitespace. -/
def stripChars (l : List Char) : List Char :=
  ((l.dropWhile Char.isWhitespace).reverse.dropWhile Char.isWhitespace).reverse

/-- Python falsiness of `text` combined with `text.strip()`: embeds the
pattern `not text or not text.strip()`, which holds exactly when the string
is empty or all-whitespace. -/
def pyBlank (s : String) : Bool := (s.data.dropWhile Char.isWhitespace).isEmpty

/-- `os.environ[key]`: the value, or a raised `KeyError` when unset. -/
def reqEnv (v : Option String) (k : String) : Except String String :=
  match v with
  | some s => .ok s
  | none => .error ("KeyError: " ++ k)

namespace WeeklyGoals

/-- Embeds `weekly_goals_agent.store_message`: a `put_item` of a record with
the agent tag and a 14-day TTL; the stored item carries no `user_id`. -/
def store_message (tbl : List Record) (thread_ts : String)
    (role message_text : String) (agent : String) (now : Nat) : List Record :=
  putItem tbl ⟨thread_ts, now, none, role, message_text, agent, now + 14 * 86400⟩

/-- Embeds `weekly_goals_agent.get_history` (and the identically written
`daily_planner_agent.get_history`): an ascending query over the thread
partition projected to `{role, content}`.  Note that the query carries no
filter on `expires_at`. -/
def get_history (tbl : List Record) (thread_ts : String) : List MessagesEntry :=
  (queryAsc tbl thread_ts).map (fun r => ⟨r.role, r.message_text⟩)

/-- The record that one `store_message` call writes, from a
(clock value, role, message text) triple. -/
def mkRec (t : String) (m : Nat × String × String) : Record :=
  ⟨t, m.1, none, m.2.1, m.2.2, "weekly_goals", m.1 + 14 * 86400⟩

/-- A finite sequence of `store_message` calls against one thread; each call
samples the injected clock, giving the `Nat` component of its triple. -/
def appendAll (tbl : List Record) (t : String)
    (msgs : List (Nat × String × String)) : List Record :=
  msgs.foldl (fun acc m => store_message acc t m.2.1 m.2.2 "weekly_goals" m.1) tbl

theorem queryAsc_appendAll (t : String) (msgs : List (Nat × String × String)) :
    ∀ tbl : List Record,
      List.Pairwise (fun a b => a.1 < b.1) msgs →
      (∀ x ∈ tbl, x.thread_id = t → ∀ m ∈ msgs, x.timestamp < m.1) →
      queryAsc (appendAll tbl t msgs) t =
        queryAsc tbl t ++ msgs.map (mkRec t) := by
  induction msgs with
  | nil => intro tbl _ _; simp [appendAll]
  | cons m ms ih =>
    intro tbl hp h
    have hp' := (List.pairwise_cons.mp hp).2
    have hm : ∀ b ∈ ms, m.1 < b.1 := (List.pairwise_cons.mp hp).1
    have hstep :
        queryAsc (store_message tbl t m.2.1 m.2.2 "weekly_goals" m.1) t =
          queryAsc tbl t ++ [mkRec t m] := by
      exact queryAsc_putItem_last tbl (mkRec t m) t rfl
        (fun x hx hxt => h x hx hxt m (List.mem_cons_self m ms))
    have hnext :
        ∀ x ∈ store_message tbl t m.2.1 m.2.2 "weekly_goals" m.1,
          x.thread_id = t → ∀ m' ∈ ms, x.timestamp < m'.1 := by
      intro x hx hxt m' hm'
      rcases mem_putItem _ _ _ hx with hmem | rfl
      · exact h x hmem hxt m' (List.mem_cons_of_mem m hm')
      · exact hm m' hm'
    calc queryAsc (appendAll tbl t (m :: ms)) t
        = queryAsc (appendAll (store_message tbl t m.2.1 m.2.2 "weekly_goals" m.1) t ms) t := rfl
      _ = queryAsc (store_message tbl t m.2.1 m.2.2 "weekly_goals" m.1) t ++ ms.map (mkRec t) :=
          ih _ hp' hnext
      _ = (queryAsc tbl t ++ [mkRec t m]) ++ ms.map (mkRec t) := by rw [hstep]
      _ = queryAsc tbl t ++ (m :: ms).map (mkRec t) := by simp

/-- The trigger phrase of the lock-in check in `handle_thread_reply`. -/
def lockPhrase : List Char := "lock it in".data

/-- Python `s.lower()` restricted to the ASCII range, as a character list. -/
def lowerChars (s : String) : List Char := s.data.map Char.toLower

/-- Python substring containment `needle in hay` over character lists. -/
def containsSub (needle : List Char) : List Char → Bool
  | [] => needle.isEmpty
  | c :: rest => needle.isPrefixOf (c :: rest) || containsSub needle rest

/-- Embeds the check `"lock it in" in user_text.lower()` of
`handle_thread_reply`: case-insensitive substring containment. -/
def containsLockPhrase (s : String) : Bool := containsSub lockPhrase (lowerChars s)

/-- The hard-coded text substituted for a blank model response. -/
def fallback_draft : String :=
  "Weekly goals agent did not get a usable response. Please rerun or check logs."

/-- Embeds `if not draft or not draft.strip(): draft = ...` in both the
kickoff and the thread-reply paths. -/
def effective_draft (s : String) : String :=
  if pyBlank s then fallback_draft else s

/-- Embeds `draft.splitlines()[0].strip() if draft else "Weekly Goals"`:
the characters before the first line break, stripped. -/
def firstLineStripped (s : String) : String :=
  if s = "" then "Weekly Goals"
  else ⟨stripChars (s.data.takeWhile (fun c => c ≠ '\n'))⟩

/-- Modelled from the spec: `hevy_tools.write_weekly_goal_doc` is called by
`handle_thread_reply` but is not present in the provided sources (the
provided `hevy_tools.py` holds only the read/format helpers).  The spec
describes the object store as `put(key, bytes) -> key`, with weekly-goal
documents stored under a store path and versioned by the store, and each
lock-in persisting a new document artifact; so a write appends one artifact
carrying the given title and the full content, and returns the object key. -/
def write_weekly_goal_doc (docs : List GoalDoc) (content : String)
    (title : String) : List GoalDoc × String :=
  (docs ++ [⟨title, content⟩], "weekly-goals/" ++ title)

/-- What a weekly-goals invocation produced: the returned status code, the
chat.postMessage calls made, the conversation table afterwards and the
weekly-goal documents afterwards. -/
structure WGOutcome where
  statusCode : Nat
  posts : List SlackPost
  table : List Record
  docs : List GoalDoc
deriving Repr, DecidableEq

/-- Embeds `weekly_goals_agent.handle_scheduled_kickoff`.  `dataPack` is the
injected result of `build_data_pack` (the Hevy fetches may raise), `llm` the
injected result of `call_openai`, and `postResp` the injected result of
`post_slack_message` (raises on a failed post; on success yields the
optional `ts` field of the Slack response). -/
def handle_scheduled_kickoff (dataPack llm : Except String String)
    (postResp : Except String (Option String)) (channel : String)
    (tableName : Option String) (tbl : List Record) (docs : List GoalDoc)
    (now : Nat) : Except String WGOutcome :=
  match dataPack with
  | .error e => .error e
  | .ok _ =>
    match llm with
    | .error e => .error e
    | .ok draftRaw =>
      let draft := effective_draft draftRaw
      match postResp with
      | .error e => .error e
      | .ok tsOpt =>
        let table :=
          match tableName, tsOpt with
          | some _, some ts =>
            store_message tbl ts "assistant" draft "weekly_goals" now
          | _, _ => tbl
        .ok ⟨200, [⟨channel, draft, none⟩], table, docs⟩

/-- Embeds `weekly_goals_agent.handle_thread_reply`.  The two clock samples
`nowU` and `nowA` are the timestamps of the two `store_message` calls (the
code samples `datetime.utcnow()` once per call). -/
def handle_thread_reply (userText : String) (threadTs : Option String)
    (dataPack llm : Except String String)
    (postResp : Except String (Option String)) (channel : String)
    (tableName : Option String) (tbl : List Record) (docs : List GoalDoc)
    (nowU nowA : Nat) : Except String WGOutcome :=
  match threadTs with
  | none => .ok ⟨400, [], tbl, docs⟩
  | some tts =>
    let _history :=
      match tableName with
      | some _ => get_history tbl tts
      | none => ([] : List MessagesEntry)
    match dataPack with
    | .error e => .error e
    | .ok _ =>
      let lock_it := containsLockPhrase userText
      match llm with
      | .error e => .error e
      | .ok draftRaw =>
        let draft0 := effective_draft draftRaw
        let state :=
          if lock_it then
            let title_line := firstLineStripped draft0
            let wr := write_weekly_goal_doc docs draft0 title_line
            let lock_info := "Saved weekly goals to s3://" ++ wr.2
            (wr.1, draft0 ++ "\n\n" ++ lock_info)
          else (docs, draft0)
        match postResp with
        | .error e => .error e
        | .ok _ =>
          let table :=
            match tableName with
            | some _ =>
                store_message
                  (store_message tbl tts "user" userText "weekly_goals" nowU)
                  tts "assistant" state.2 "weekly_goals" nowA
            | none => tbl
          .ok ⟨200, [⟨channel, state.2, some tts⟩], table, state.1⟩

/-- The environment variables read by `weekly_goals_agent.handler`.
`SLACK_BOT_TOKEN` and `WEEKLY_GOALS_CHANNEL` are read with a `""` default, so
they are plain strings; the two API keys are read with `os.environ[...]`
which raises `KeyError` when missing. -/
structure WGEnv where
  openaiKey : Option String
  hevyKey : Option String
  slackToken : String
  channel : String
  tableName : Option String
deriving Repr, DecidableEq

/-- The body of the `try` block of `weekly_goals_agent.handler`:
environment reads, the Slack-configuration check, the prompt load, then
dispatch on `is_thread_reply`. -/
def weekly_goals_inner (env : WGEnv) (promptLoad dataPack llm : Except String String)
    (postResp : Except String (Option String)) (isThreadReply : Bool)
    (userText : String) (threadTs : Option String) (tbl : List Record)
    (docs : List GoalDoc) (nowU nowA : Nat) : Except String WGOutcome := do
  let _ ← reqEnv env.openaiKey "OPENAI_API_KEY"
  let _ ← reqEnv env.hevyKey "HEVY_API_KEY"
  if env.slackToken = "" ∨ env.channel = "" then
    return ⟨500, [], tbl, docs⟩
  let _ ← promptLoad
  if isThreadReply then
    handle_thread_reply userText threadTs dataPack llm postResp env.channel
      env.tableName tbl docs nowU nowA
  else
    handle_scheduled_kickoff dataPack llm postResp env.channel env.tableName
      tbl docs nowA

/-- Embeds `weekly_goals_agent.handler`: the whole body runs inside a
`try`; the `except` arm logs, best-effort posts an error text to the channel
(when token and channel are configured; a failure of that post is itself
swallowed) and returns a 500 response instead of re-raising. -/
def weekly_goals_handler (env : WGEnv)
    (promptLoad dataPack llm : Except String String)
    (postResp : Except String (Option String)) (isThreadReply : Bool)
    (userText : String) (threadTs : Option String) (tbl : List Record)
    (docs : List GoalDoc) (nowU nowA : Nat) : Except String WGOutcome :=
  match weekly_goals_inner env promptLoad dataPack llm postResp isThreadReply
      userText threadTs tbl docs nowU nowA with
  | .ok o => .ok o
  | .error e =>
    let errText :=
      "Weekly goals agent error: Weekly goals agent failed: " ++ e
    let posts :=
      if env.slackToken ≠ "" ∧ env.channel ≠ "" then
        [(⟨env.channel, errText, none⟩ : SlackPost)]
      else []
    .ok ⟨500, posts, tbl, docs⟩

end WeeklyGoals

namespace SlackEvents

/-- The payload with which the events receiver invokes the target agent. -/
structure AgentPayload where
  user_id : Option String
  user_name : String
  channel_id : Option String
  thread_ts : String
  user_message : String
  is_thread_reply : Bool
deriving Repr, DecidableEq

/-- One observable side effect of the events receiver, in program order:
a `put_item` on the conversation table or an asynchronous Lambda
invocation. -/
inductive Action where
  | append (r : Record)
  | invoke (fn : String) (payload : AgentPayload)
deriving Repr, DecidableEq

/-- The environment variables read by `slack_events_handler.handler`. -/
structure RouterEnv where
  planningFn : Option String
  weeklyGoalsFn : Option String
  dailyPlannerFn : Option String
  conversationTable : Option String
deriving Repr, DecidableEq

/-- The fields of an inbound `event_callback` message event that the
receiver reads. -/
structure MsgEvent where
  subtype : Option String
  botId : Option String
  user : Option String
  channel : Option String
  text : String
  threadTs : Option String
  ts : Option String
deriving Repr, DecidableEq

/-- Embeds the ownership lookup of `slack_events_handler.handler`
(lines 95-112): start from the planning agent, then, when a conversation
table is configured, query the thread descending with limit 1 (that is, the
record with the largest sort key) and switch on its `agent` tag. -/
def resolveTarget (env : RouterEnv) (tbl : List Record) (tts : String) :
    Option String :=
  match env.conversationTable with
  | some _ =>
    match (queryAsc tbl tts).getLast? with
    | some item =>
      if item.agent = "weekly_goals" ∧ env.weeklyGoalsFn.isSome then
        env.weeklyGoalsFn
      else if item.agent = "daily_planner" ∧ env.dailyPlannerFn.isSome then
        env.dailyPlannerFn
      else env.planningFn
    | none => env.planningFn
  | none => env.planningFn

/-- Embeds the `message` branch of `slack_events_handler.handler`: the
actionability filters, the ownership lookup, the conversation-table write of
the inbound message (tagged `"weekly_goals"` exactly when the resolved
target is the weekly-goals function and `"planner"` otherwise) and the
asynchronous agent invocation, returned as a status code and the ordered
list of side effects. -/
def routeMessage (env : RouterEnv) (tbl : List Record) (now : Nat)
    (ev : MsgEvent) : Nat × List Action :=
  if ev.subtype = some "bot_message" ∨ ev.subtype = some "message_changed" ∨
      ev.subtype = some "message_deleted" then (200, [])
  else if ev.botId.isSome then (200, [])
  else
    match ev.threadTs with
    | none => (200, [])
    | some tts =>
      if tts = "" then (200, [])
      else if pyBlank ev.text then (200, [])
      else
        match resolveTarget env tbl tts with
        | none => (500, [])
        | some fn =>
          let payload : AgentPayload :=
            ⟨ev.user, "user", ev.channel, tts, ev.text, true⟩
          let appends :=
            match env.conversationTable with
            | some _ =>
              [Action.append ⟨tts, now, ev.user, "user", ev.text,
                (if env.weeklyGoalsFn = some fn then "weekly_goals" else "planner"),
                now + 14 * 86400⟩]
            | none => []
          (200, appends ++ [Action.invoke fn payload])

/-- The Lambda functions invoked by a trace, in order. -/
def invokedFns (acts : List Action) : List String :=
  acts.filterMap (fun a =>
    match a with
    | .invoke fn _ => some fn
    | .append _ => none)

end SlackEvents

namespace HevyWebhook

/-- The parse outcome of the webhook request body: a JSON object whose
`payload.workoutId` is either present (possibly empty) or absent, or a body
on which the parsing code raises (the `except` arm of the handler). -/
inductive WebhookBody where
  | parsed (workoutId : Option String)
  | malformed
deriving Repr, DecidableEq

/-- The JSON body of the webhook response. -/
inductive RespBody where
  | unauthorized
  | missingWorkoutId
  | received (workoutId : String)
  | processingAsync
deriving Repr, DecidableEq

/-- The HTTP response of the webhook receiver. -/
structure WebhookResponse where
  statusCode : Nat
  body : RespBody
deriving Repr, DecidableEq

/-- Python `headers.get(k)` on the request headers dictionary. -/
def lookupHeader (headers : List (String × String)) (k : String) : Option String :=
  (headers.find? (fun p => p.1 == k)).map (·.2)

/-- Embeds `headers.get('authorization') or headers.get('Authorization')`:
Python `or` falls through on a missing key and on an empty string. -/
def resolveAuth (headers : List (String × String)) : Option String :=
  match lookupHeader headers "authorization" with
  | some v => if v = "" then lookupHeader headers "Authorization" else some v
  | none => lookupHeader headers "Authorization"

/-- Embeds `hevy_webhook.handler`: auth check, body parse, workoutId check,
then one asynchronous analyzer invocation.  The returned list holds the
downstream invocations as (function name, workoutId payload) pairs.  A
malformed body, or an invoke attempted with no analyzer function configured,
lands in the `except` arm, which acknowledges with a 200. -/
def handler (expectedAuth : Option String) (analyzerFn : Option String)
    (headers : List (String × String)) (body : WebhookBody) :
    WebhookResponse × List (String × String) :=
  let auth := resolveAuth headers
  let authMissing :=
    match auth with
    | none => true
    | some v => v = ""
  if authMissing = true ∨ auth ≠ expectedAuth then (⟨401, .unauthorized⟩, [])
  else
    match body with
    | .malformed => (⟨200, .processingAsync⟩, [])
    | .parsed wid =>
      match wid with
      | none => (⟨400, .missingWorkoutId⟩, [])
      | some w =>
        if w = "" then (⟨400, .missingWorkoutId⟩, [])
        else
          match analyzerFn with
          | some fn => (⟨200, .received w⟩, [(fn, w)])
          | none => (⟨200, .processingAsync⟩, [])

end HevyWebhook

namespace DailyPlanner

/-- Embeds `daily_planner_agent.store_message`: a 7-day TTL and no
`user_id` attribute on the stored item. -/
def store_message (tbl : List Record) (thread_ts : String)
    (role message_text : String) (agent : String) (now : Nat) : List Record :=
  putItem tbl ⟨thread_ts, now, none, role, message_text, agent, now + 7 * 86400⟩

/-- Embeds `daily_planner_agent.handler` together with its two branches
`handle_scheduled` and `handle_thread`.  Unlike the weekly-goals handler,
this handler has no try/except around its body: a failure of the
environment reads, the prompt load, the context build, the model call or
the Slack post propagates to the caller as an `Except.error`. -/
def handler (openaiKey hevyKey : Option String) (slackToken channel : String)
    (tableName : Option String) (isThreadReply : Bool)
    (userMessage : Option String) (threadTs : Option String)
    (promptLoad context llm : Except String String)
    (postResp : Except String (Option String)) (tbl : List Record)
    (nowU nowA : Nat) : Except String (Nat × List SlackPost × List Record) := do
  let _ ← reqEnv openaiKey "OPENAI_API_KEY"
  let _ ← reqEnv hevyKey "HEVY_API_KEY"
  if slackToken = "" ∨ channel = "" then
    return (500, [], tbl)
  let _ ← promptLoad
  if isThreadReply then
    match threadTs with
    | none => return (400, [], tbl)
    | some tts =>
      let _history :=
        match tableName with
        | some _ => WeeklyGoals.get_history tbl tts
        | none => ([] : List MessagesEntry)
      let _ ← context
      let draft ← llm
      let _ ← postResp
      let table :=
        match tableName with
        | some _ =>
            store_message
              (store_message tbl tts "user" ((userMessage).getD "") "daily_planner" nowU)
              tts "assistant" draft "daily_planner" nowA
        | none => tbl
      return (200, [⟨channel, draft, some tts⟩], table)
  else
    let _ ← context
    let draft ← llm
    let tsOpt ← postResp
    let table :=
      match tableName, tsOpt with
      | some _, some ts => store_message tbl ts "assistant" draft "daily_planner" nowA
      | _, _ => tbl
    return (200, [⟨channel, draft, none⟩], table)

end DailyPlanner

namespace CoachDocRefresher

/-- Modelled from the spec: `hevy_tools.write_coach_doc` is called by the
coach-doc refresher but is absent from the provided sources.  The spec
describes the object store as `put(key, bytes) -> key` with the coach doc
kept under its own store path and versioned by the store, so a write appends
one artifact and returns its key. -/
def write_coach_doc (docs : List GoalDoc) (content : String) :
    List GoalDoc × String :=
  (docs ++ [⟨"coach-doc", content⟩], "coach-doc")

/-- Embeds `coach_doc_refresher.handler`: the configuration check, the four
context fetches, the prompt load, the model call, the doc write and the
Slack post — with no try/except anywhere, so any failure propagates to the
caller as an `Except.error`. -/
def handler (hevyKey openaiKey : Option String) (slackToken channel : String)
    (coachDoc weeklyGoalsDoc workoutsText freqText promptLoad llm :
      Except String String)
    (postResp : Except String Unit) (docs : List GoalDoc) :
    Except String (Nat × List GoalDoc) := do
  if hevyKey = none ∨ openaiKey = none ∨ slackToken = "" ∨ channel = "" then
    return (500, docs)
  let _ ← coachDoc
  let _ ← weeklyGoalsDoc
  let _ ← workoutsText
  let _ ← freqText
  let _ ← promptLoad
  let updated ← llm
  let wr := write_coach_doc docs updated
  let _ ← postResp
  return (200, wr.1)

end CoachDocRefresher

namespace WeeklyReview

/-- Embeds `weekly_review.handler`: the configuration check, then a `try`
around the workout fetch (which itself swallows HTTP errors and yields a
list), the model call (which raises on failure) and the Slack webhook post
(which swallows its own failures); the `except` arm returns a 500 without
posting anything. -/
def handler (hevyKey openaiKey webhookUrl : Option String)
    (_workoutContext : String) (llm : Except String String) :
    Except String (Nat × List SlackPost) :=
  match hevyKey, openaiKey, webhookUrl with
  | some _, some _, some wu =>
    match llm with
    | .ok review => .ok (200, [⟨wu, review, none⟩])
    | .error _ => .ok (500, [])
  | _, _, _ => .ok (500, [])

end WeeklyReview

namespace WorkoutPlanning

/-- Embeds `workout_planning_agent.store_message`: a 7-day TTL and a
`user_id` attribute on the stored item; storage failures are swallowed. -/
def store_message (tbl : List Record) (thread_ts : String)
    (userId : Option String) (role message_text : String) (agent : String)
    (now : Nat) : List Record :=
  putItem tbl ⟨thread_ts, now, userId, role, message_text, agent, now + 7 * 86400⟩

/-- Embeds the `thread_ts if thread_ts and not thread_ts.startswith('new_')
else None` normalization of `workout_planning_agent.handler`. -/
def actualThreadTs (threadTs : Option String) : Option String :=
  match threadTs with
  | some t => if t = "" ∨ t.startsWith "new_" then none else some t
  | none => none

/-- The body of the `try` block of `workout_planning_agent.handler`: the
bot-token check, the history fetch (internally caught), the model call and
the Slack Web-API post (both raise on failure) and the two history writes
(storage failures swallowed). -/
def tryBody (slackToken : Option String) (userId channelId : Option String)
    (threadTs : Option String) (userMessage : String)
    (llm : Except String String) (postResp : Except String String)
    (tbl : List Record) (nowU nowA : Nat) :
    Except String (Nat × List SlackPost × List Record) := do
  match slackToken with
  | none => return (500, [], tbl)
  | some tok =>
    if tok = "NOT_CONFIGURED" then return (500, [], tbl)
    else
      let actual := actualThreadTs threadTs
      let ai ← llm
      let msgTs ← postResp
      let finalTs := actual.getD msgTs
      let table :=
        store_message
          (store_message tbl finalTs userId "user" userMessage "planner" nowU)
          finalTs userId "assistant" ai "planner" nowA
      return (200, [⟨(channelId).getD "", ai, actual⟩], table)

/-- Embeds `workout_planning_agent.handler`: configuration checks, then the
`try` body; the `except` arm best-effort posts a fixed error text and
returns a 500 instead of re-raising. -/
def handler (hevyKey openaiKey tableName slackToken : Option String)
    (userId channelId : Option String) (threadTs : Option String)
    (userMessage : String) (isThreadReply : Bool)
    (llm : Except String String) (postResp : Except String String)
    (tbl : List Record) (nowU nowA : Nat) :
    Except String (Nat × List SlackPost × List Record) :=
  match hevyKey with
  | none => .ok (500, [], tbl)
  | some _ =>
  match openaiKey with
  | none => .ok (500, [], tbl)
  | some _ =>
  match tableName with
  | none => .ok (500, [], tbl)
  | some _ =>
  match tryBody slackToken userId channelId threadTs userMessage llm postResp
      tbl nowU nowA with
  | .ok r => .ok r
  | .error _ =>
    let errPosts :=
      match slackToken, channelId with
      | some tok, some ch =>
        if tok = "NOT_CONFIGURED" then []
        else
          [(⟨ch,
            "Sorry, I encountered an error while planning your workout. Please try again.",
            if isThreadReply then actualThreadTs threadTs else none⟩ : SlackPost)]
      | _, _ => []
    .ok (500, errPosts, tbl)

end WorkoutPlanning

/-- `true` exactly when no exception escaped the call. -/
def isOkE {α : Type} : Except String α → Bool
  | .ok _ => true
  | .error _ => false

/-- The weekly-goal documents after a weekly-goals invocation. -/
def wgDocs : Except String WeeklyGoals.WGOutcome → List GoalDoc
  | .ok o => o.docs
  | .error _ => []

/-- The chat.postMessage calls made by a weekly-goals invocation. -/
def wgPosts : Except String WeeklyGoals.WGOutcome → List SlackPost
  | .ok o => o.posts
  | .error _ => []

/-- Written from the spec sentence for comparison with the code: history
returns only the records whose `expires_at` is not in the past at query
time. -/
def get_history_spec (tbl : List Record) (t : String) (now : Nat) :
    List MessagesEntry :=
  ((queryAsc tbl t).filter (fun r => decide (now ≤ r.expires_at))).map
    (fun r => ⟨r.role, r.message_text⟩)

/-- Router environment for the C1 scenario: all three agent functions and
the conversation table are configured. -/
def envC1 : SlackEvents.RouterEnv :=
  ⟨some "planner-fn", some "weekly-fn", some "daily-fn", some "conv-table"⟩

/-- Conversation table for the C1 scenario: the thread `t1` is owned by the
daily planner (its latest record carries `agent = "daily_planner"`). -/
def tblC1 : List Record :=
  [⟨"t1", 10, none, "assistant", "plan for today", "daily_planner", 10 + 7 * 86400⟩]

/-- An actionable inbound thread reply to `t1`. -/
def evC1 : SlackEvents.MsgEvent :=
  ⟨none, none, some "U1", some "C1", "swap squats", some "t1", some "t2"⟩

/-- Router environment for the C2 scenario. -/
def envC2 : SlackEvents.RouterEnv :=
  ⟨some "planner-fn", some "weekly-fn", some "daily-fn", some "conv-table"⟩

/-- Conversation table for the C2 scenario: thread `t9` is owned by the
weekly-goals agent. -/
def tblC2 : List Record :=
  [⟨"t9", 7, none, "assistant", "goals", "weekly_goals", 7 + 14 * 86400⟩]

/-- An actionable inbound thread reply to `t9`. -/
def evC2 : SlackEvents.MsgEvent :=
  ⟨none, none, some "U2", some "C2", "make it harder", some "t9", some "t10"⟩

/-- Conversation table for the C3 scenario: one record of thread `t1` whose
`expires_at` (5) is already in the past at query time 100. -/
def tblC3 : List Record :=
  [⟨"t1", 10, none, "user", "hi", "weekly_goals", 5⟩]

/-- C1, counterexample.  On a thread owned by the daily planner the receiver
does resolve the daily-planner function and does append the inbound record
before invoking it, but the appended record is tagged `"planner"`, not
`"daily_planner"`, so the recorded agent field does not equal the name of
the resolved target agent. -/
theorem C1_counterexample :
    SlackEvents.routeMessage envC1 tblC1 100 evC1 =
      (200,
        [SlackEvents.Action.append
          ⟨"t1", 100, some "U1", "user", "swap squats", "planner", 100 + 14 * 86400⟩,
         SlackEvents.Action.invoke "daily-fn"
          ⟨some "U1", "user", some "C1", "t1", "swap squats", true⟩]) ∧
    "planner" ≠ "daily_planner" := by
  decide

/-- C1, amended.  For every actionable inbound thread reply with a
conversation table configured and a resolved target, the receiver appends
exactly one conversation record for the inbound message and then performs
exactly one asynchronous invocation of the resolved target, with the append
first in program order; the appended record carries agent `"weekly_goals"`
when the resolved target is the weekly-goals function and `"planner"` in
every other case (also when the daily planner is the resolved target). -/
theorem C1_amended (env : SlackEvents.RouterEnv) (tbl : List Record)
    (now : Nat) (ev : SlackEvents.MsgEvent) (tts fn tn : String)
    (hsub : ev.subtype = none) (hbot : ev.botId = none)
    (hts : ev.threadTs = some tts) (htts : tts ≠ "")
    (htext : pyBlank ev.text = false)
    (htab : env.conversationTable = some tn)
    (hres : SlackEvents.resolveTarget env tbl tts = some fn) :
    SlackEvents.routeMessage env tbl now ev =
      (200,
        [SlackEvents.Action.append
          ⟨tts, now, ev.user, "user", ev.text,
            (if env.weeklyGoalsFn = some fn then "weekly_goals" else "planner"),
            now + 14 * 86400⟩,
         SlackEvents.Action.invoke fn
          ⟨ev.user, "user", ev.channel, tts, ev.text, true⟩]) := by
  simp [SlackEvents.routeMessage, hsub, hbot, hts, htts, htext, htab, hres]

/-- C1, witness for the amended theorem at the concrete C1 scenario. -/
theorem C1_amended_witness :
    SlackEvents.routeMessage envC1 tblC1 100 evC1 =
      (200,
        [SlackEvents.Action.append
          ⟨"t1", 100, some "U1", "user", "swap squats", "planner", 100 + 14 * 86400⟩,
         SlackEvents.Action.invoke "daily-fn"
          ⟨some "U1", "user", some "C1", "t1", "swap squats", true⟩]) := by
  have h := C1_amended envC1 tblC1 100 evC1 "t1" "daily-fn" "conv-table"
    rfl rfl rfl (by decide) (by decide) rfl (by decide)
  simpa using h

/-- C2.  An actionable reply to a thread with no conversation records is
forwarded to the statically configured default agent (the workout planner),
and an actionable reply to a thread whose most recent record carries agent
`"weekly_goals"` is forwarded to the configured weekly-goals function. -/
theorem C2_thread_routing :
    (∀ (env : SlackEvents.RouterEnv) (tbl : List Record) (now : Nat)
        (ev : SlackEvents.MsgEvent) (tts tn p : String),
      ev.subtype = none → ev.botId = none → ev.threadTs = some tts →
      tts ≠ "" → pyBlank ev.text = false → env.conversationTable = some tn →
      queryAsc tbl tts = [] → env.planningFn = some p →
      SlackEvents.invokedFns (SlackEvents.routeMessage env tbl now ev).2 = [p]) ∧
    (∀ (env : SlackEvents.RouterEnv) (tbl : List Record) (now : Nat)
        (ev : SlackEvents.MsgEvent) (tts tn w : String) (r : Record),
      ev.subtype = none → ev.botId = none → ev.threadTs = some tts →
      tts ≠ "" → pyBlank ev.text = false → env.conversationTable = some tn →
      (queryAsc tbl tts).getLast? = some r → r.agent = "weekly_goals" →
      env.weeklyGoalsFn = some w →
      SlackEvents.invokedFns (SlackEvents.routeMessage env tbl now ev).2 = [w]) := by
  constructor
  · intro env tbl now ev tts tn p hsub hbot hts htts htext htab hq hp
    have hres : SlackEvents.resolveTarget env tbl tts = some p := by
      simp [SlackEvents.resolveTarget, htab, hq, hp]
    simp [SlackEvents.routeMessage, hsub, hbot, hts, htts, htext, htab, hres,
      SlackEvents.invokedFns]
  · intro env tbl now ev tts tn w r hsub hbot hts htts htext htab hlast hagent hw
    have hres : SlackEvents.resolveTarget env tbl tts = some w := by
      simp [SlackEvents.resolveTarget, htab, hlast, hagent, hw]
    simp [SlackEvents.routeMessage, hsub, hbot, hts, htts, htext, htab, hres,
      SlackEvents.invokedFns]

/-- C2, witness: an unknown thread routes to the planner function; a thread
last owned by `weekly_goals` routes to the weekly-goals function. -/
theorem C2_thread_routing_witness :
    SlackEvents.invokedFns
      (SlackEvents.routeMessage envC2 [] 100 evC2).2 = ["planner-fn"] ∧
    SlackEvents.invokedFns
      (SlackEvents.routeMessage envC2 tblC2 100 evC2).2 = ["weekly-fn"] :=
  ⟨C2_thread_routing.1 envC2 [] 100 evC2 "t9" "conv-table" "planner-fn"
      rfl rfl rfl (by decide) (by decide) rfl (by decide) rfl,
   C2_thread_routing.2 envC2 tblC2 100 evC2 "t9" "conv-table" "weekly-fn"
      ⟨"t9", 7, none, "assistant", "goals", "weekly_goals", 7 + 14 * 86400⟩
      rfl rfl rfl (by decide) (by decide) rfl (by decide) rfl rfl⟩

/-- C3, counterexample.  `get_history` takes no query-time parameter and
applies no filter on `expires_at`: a record whose `expires_at` (5) lies
before the query time (100) still appears in the returned history, so the
code differs from the filtering behaviour the claim states. -/
theorem C3_counterexample :
    WeeklyGoals.get_history tblC3 "t1" = [⟨"user", "hi"⟩] ∧
    get_history_spec tblC3 "t1" 100 = [] ∧
    WeeklyGoals.get_history tblC3 "t1" ≠ get_history_spec tblC3 "t1" 100 := by
  decide

/-- C3, amended.  The history operation returns the records of the thread
currently stored in the table, with no filtering on `expires_at` (every
stored record of the thread appears, expired or not), and returns the empty
sequence for an unknown thread. -/
theorem C3_amended :
    (∀ (tbl : List Record) (t : String) (r : Record), r ∈ tbl →
      r.thread_id = t →
      (⟨r.role, r.message_text⟩ : MessagesEntry) ∈ WeeklyGoals.get_history tbl t) ∧
    (∀ (tbl : List Record) (t : String), (∀ r ∈ tbl, r.thread_id ≠ t) →
      WeeklyGoals.get_history tbl t = []) := by
  constructor
  · intro tbl t r hr hrt
    exact List.mem_map_of_mem _ (List.mem_filter.mpr ⟨hr, by simp [hrt]⟩)
  · intro tbl t h
    simp [WeeklyGoals.get_history, queryAsc_eq_nil tbl t h]

/-- C3, witness for the amended theorem: the (expired) record of `tblC3`
appears in the history of its thread, and an unknown thread yields `[]`. -/
theorem C3_amended_witness :
    (⟨"user", "hi"⟩ : MessagesEntry) ∈ WeeklyGoals.get_history tblC3 "t1" ∧
    WeeklyGoals.get_history tblC3 "t2" = [] :=
  ⟨C3_amended.1 tblC3 "t1" ⟨"t1", 10, none, "user", "hi", "weekly_goals", 5⟩
      (by decide) rfl,
   C3_amended.2 tblC3 "t2" (by decide)⟩

/-- C4, counterexample.  The daily planner handler has no outermost
catch-all: a failed model call propagates out of the public entry point as
an uncaught exception (an `Except.error`), refuting the claim that every
agent handler entry point catches any exception raised inside its body. -/
theorem C4_counterexample :
    DailyPlanner.handler (some "ok-key") (some "hevy-key") "xoxb" "C1" none
      false (some "plan today") none (.ok "prompt") (.ok "context")
      (.error "OpenAI API error 500") (.ok (some "171.5")) [] 1 2 =
      .error "OpenAI API error 500" := by
  rfl

/-- C4, amended.  The weekly-goals, workout-planning and weekly-review
handlers wrap their bodies in an outermost catch-all and always return
(never raise): the weekly-goals handler returns a 500 and best-effort posts
an error text to its channel, the workout-planning handler returns a 500
and best-effort posts a fixed error text, and the weekly-review handler
returns a 500 without posting anything.  The daily-planner and
coach-doc-refresher handlers have no such catch-all: a failed model call
escapes them uncaught. -/
theorem C4_amended :
    (∀ (env : WeeklyGoals.WGEnv) (promptLoad dataPack llm : Except String String)
        (postResp : Except String (Option String)) (itr : Bool) (ut : String)
        (tts : Option String) (tbl : List Record) (docs : List GoalDoc)
        (n1 n2 : Nat),
      isOkE (WeeklyGoals.weekly_goals_handler env promptLoad dataPack llm
        postResp itr ut tts tbl docs n1 n2) = true) ∧
    (∀ (hk ok tn tok uid cid tts : Option String) (um : String) (itr : Bool)
        (llm : Except String String) (post : Except String String)
        (tbl : List Record) (n1 n2 : Nat),
      isOkE (WorkoutPlanning.handler hk ok tn tok uid cid tts um itr llm post
        tbl n1 n2) = true) ∧
    (∀ (hk ok wu : Option String) (wc : String) (llm : Except String String),
      isOkE (WeeklyReview.handler hk ok wu wc llm) = true) ∧
    (∀ (e pl ctx : String) (post : Except String (Option String))
        (tbl : List Record) (n1 n2 : Nat),
      DailyPlanner.handler (some "k") (some "h") "tok" "chan" none false none
        none (.ok pl) (.ok ctx) (.error e) post tbl n1 n2 = .error e) ∧
    (∀ (e cd wg w f pl : String) (post : Except String Unit)
        (docs : List GoalDoc),
      CoachDocRefresher.handler (some "h") (some "k") "tok" "chan" (.ok cd)
        (.ok wg) (.ok w) (.ok f) (.ok pl) (.error e) post docs = .error e) ∧
    (∀ (e ut tts : String) (tbl : List Record) (docs : List GoalDoc)
        (n1 n2 : Nat),
      WeeklyGoals.weekly_goals_handler ⟨some "k", some "h", "tok", "chan", none⟩
        (.ok "p") (.ok "d") (.error e) (.ok none) true ut (some tts) tbl docs
        n1 n2 =
        .ok ⟨500,
          [⟨"chan", "Weekly goals agent error: Weekly goals agent failed: " ++ e,
            none⟩], tbl, docs⟩) ∧
    (∀ (e : String),
      WeeklyReview.handler (some "h") (some "k") (some "wu") "ctx" (.error e) =
        .ok (500, [])) := by
  refine ⟨?_, ?_, ?_, ?_, ?_, ?_, ?_⟩
  · intro env promptLoad dataPack llm postResp itr ut tts tbl docs n1 n2
    unfold WeeklyGoals.weekly_goals_handler
    cases WeeklyGoals.weekly_goals_inner env promptLoad dataPack llm postResp
        itr ut tts tbl docs n1 n2 <;> rfl
  · intro hk ok tn tok uid cid tts um itr llm post tbl n1 n2
    unfold WorkoutPlanning.handler
    cases hk <;> cases ok <;> cases tn <;> try rfl
    cases WorkoutPlanning.tryBody tok uid cid tts um llm post tbl n1 n2 <;> rfl
  · intro hk ok wu wc llm
    unfold WeeklyReview.handler
    cases hk <;> cases ok <;> cases wu <;> try rfl
    cases llm <;> rfl
  · intro e pl ctx post tbl n1 n2
    rfl
  · intro e cd wg w f pl post docs
    rfl
  · intro e ut tts tbl docs n1 n2
    rfl
  · intro e
    rfl

/-- C5.  A scheduled weekly-goals kickoff with Slack and the conversation
table configured, given fixed successful model and post responses (the post
response carrying the new message ts), posts exactly one thread-starting
message (no thread_ts on the post), stores exactly one assistant-role
record keyed by the new thread identifier, and returns status 200. -/
theorem C5_scheduled_kickoff (dp draftRaw ts ch tn : String)
    (tbl : List Record) (docs : List GoalDoc) (now : Nat)
    (hfresh : ∀ r ∈ tbl, r.thread_id ≠ ts) :
    WeeklyGoals.handle_scheduled_kickoff (.ok dp) (.ok draftRaw)
        (.ok (some ts)) ch (some tn) tbl docs now =
      .ok ⟨200, [⟨ch, WeeklyGoals.effective_draft draftRaw, none⟩],
        WeeklyGoals.store_message tbl ts "assistant"
          (WeeklyGoals.effective_draft draftRaw) "weekly_goals" now, docs⟩ ∧
    WeeklyGoals.get_history
        (WeeklyGoals.store_message tbl ts "assistant"
          (WeeklyGoals.effective_draft draftRaw) "weekly_goals" now) ts =
      [⟨"assistant", WeeklyGoals.effective_draft draftRaw⟩] := by
  constructor
  · rfl
  · have h := queryAsc_putItem_last tbl
      ⟨ts, now, none, "assistant", WeeklyGoals.effective_draft draftRaw,
        "weekly_goals", now + 14 * 86400⟩ ts rfl
      (fun x hx hxt => absurd hxt (hfresh x hx))
    unfold WeeklyGoals.get_history WeeklyGoals.store_message
    rw [h, queryAsc_eq_nil tbl ts hfresh]
    rfl

/-- C5, witness at a concrete kickoff from an empty table. -/
theorem C5_scheduled_kickoff_witness :
    WeeklyGoals.handle_scheduled_kickoff (.ok "data") (.ok "goals text")
        (.ok (some "1700.1")) "chan" (some "conv") [] [] 42 =
      .ok ⟨200, [⟨"chan", WeeklyGoals.effective_draft "goals text", none⟩],
        WeeklyGoals.store_message [] "1700.1" "assistant"
          (WeeklyGoals.effective_draft "goals text") "weekly_goals" 42, []⟩ ∧
    WeeklyGoals.get_history
        (WeeklyGoals.store_message [] "1700.1" "assistant"
          (WeeklyGoals.effective_draft "goals text") "weekly_goals" 42)
        "1700.1" =
      [⟨"assistant", WeeklyGoals.effective_draft "goals text"⟩] :=
  C5_scheduled_kickoff "data" "goals text" "1700.1" "chan" "conv" [] [] 42
    (by simp)

/-- C6.  A weekly-goals thread continuation whose user text contains the
lock-in phrase persists one new weekly-goal document whose title is the
stripped first line of the model output and whose content is the full model
output, and posts the model output with the save confirmation appended; a
second lock-in invocation persists a second document (no idempotence). -/
theorem C6_lock_in (userText tts dp draftRaw draftRaw2 : String)
    (tsOpt tsOpt2 : Option String) (ch : String) (tn : Option String)
    (tbl tbl2 : List Record) (docs : List GoalDoc) (n1 n2 n3 n4 : Nat)
    (hlock : WeeklyGoals.containsLockPhrase userText = true)
    (hdraft : pyBlank draftRaw = false) :
    WeeklyGoals.handle_thread_reply userText (some tts) (.ok dp)
        (.ok draftRaw) (.ok tsOpt) ch tn tbl docs n1 n2 =
      .ok ⟨200,
        [⟨ch,
          draftRaw ++ "\n\n" ++
            ("Saved weekly goals to s3://" ++
              ("weekly-goals/" ++ WeeklyGoals.firstLineStripped draftRaw)),
          some tts⟩],
        (match tn with
         | some _ =>
           WeeklyGoals.store_message
             (WeeklyGoals.store_message tbl tts "user" userText
               "weekly_goals" n1)
             tts "assistant"
             (draftRaw ++ "\n\n" ++
               ("Saved weekly goals to s3://" ++
                 ("weekly-goals/" ++ WeeklyGoals.firstLineStripped draftRaw)))
             "weekly_goals" n2
         | none => tbl),
        docs ++ [⟨WeeklyGoals.firstLineStripped draftRaw, draftRaw⟩]⟩ ∧
    (wgDocs (WeeklyGoals.handle_thread_reply userText (some tts) (.ok dp)
        (.ok draftRaw2) (.ok tsOpt2) ch tn tbl2
        (wgDocs (WeeklyGoals.handle_thread_reply userText (some tts) (.ok dp)
          (.ok draftRaw) (.ok tsOpt) ch tn tbl docs n1 n2))
        n3 n4)).length = docs.length + 2 := by
  have h1 :
      WeeklyGoals.handle_thread_reply userText (some tts) (.ok dp)
          (.ok draftRaw) (.ok tsOpt) ch tn tbl docs n1 n2 =
        .ok ⟨200,
          [⟨ch,
            draftRaw ++ "\n\n" ++
              ("Saved weekly goals to s3://" ++
                ("weekly-goals/" ++ WeeklyGoals.firstLineStripped draftRaw)),
            some tts⟩],
          (match tn with
           | some _ =>
             WeeklyGoals.store_message
               (WeeklyGoals.store_message tbl tts "user" userText
                 "weekly_goals" n1)
               tts "assistant"
               (draftRaw ++ "\n\n" ++
                 ("Saved weekly goals to s3://" ++
                   ("weekly-goals/" ++
                     WeeklyGoals.firstLineStripped draftRaw)))
               "weekly_goals" n2
           | none => tbl),
          docs ++ [⟨WeeklyGoals.firstLineStripped draftRaw, draftRaw⟩]⟩ := by
    simp [WeeklyGoals.handle_thread_reply, WeeklyGoals.effective_draft,
      hlock, hdraft, WeeklyGoals.write_weekly_goal_doc]
  refine ⟨h1, ?_⟩
  rw [h1]
  simp [WeeklyGoals.handle_thread_reply, hlock,
    WeeklyGoals.write_weekly_goal_doc, wgDocs]

/-- C7.  A weekly-goals thread continuation takes the document-save path
(one new document appended) exactly when the user text contains the phrase
"lock it in" under case-insensitive comparison; in particular
"please LOCK IT IN now" triggers the save and "locked" does not. -/
theorem C7_lock_trigger :
    (∀ (userText tts dp draftRaw : String) (tsOpt : Option String)
        (ch : String) (tn : Option String) (tbl : List Record)
        (docs : List GoalDoc) (n1 n2 : Nat),
      (wgDocs (WeeklyGoals.handle_thread_reply userText (some tts) (.ok dp)
        (.ok draftRaw) (.ok tsOpt) ch tn tbl docs n1 n2)).length =
        docs.length +
          (if WeeklyGoals.containsLockPhrase userText then 1 else 0)) ∧
    WeeklyGoals.containsLockPhrase "please LOCK IT IN now" = true ∧
    WeeklyGoals.containsLockPhrase "locked" = false := by
  refine ⟨?_, by decide, by decide⟩
  intro userText tts dp draftRaw tsOpt ch tn tbl docs n1 n2
  cases h : WeeklyGoals.containsLockPhrase userText <;>
    simp [WeeklyGoals.handle_thread_reply, h,
      WeeklyGoals.write_weekly_goal_doc, wgDocs]

/-- C6, witness at a concrete lock-in reply. -/
theorem C6_lock_in_witness :
    WeeklyGoals.handle_thread_reply "ok lock it in" (some "1700.1")
        (.ok "data") (.ok "Week focus\nSquat 3x") (.ok (some "1700.9"))
        "chan" (some "conv") [] [] 5 6 =
      .ok ⟨200,
        [⟨"chan",
          "Week focus\nSquat 3x" ++ "\n\n" ++
            ("Saved weekly goals to s3://" ++
              ("weekly-goals/" ++
                WeeklyGoals.firstLineStripped "Week focus\nSquat 3x")),
          some "1700.1"⟩],
        (match (some "conv" : Option String) with
         | some _ =>
           WeeklyGoals.store_message
             (WeeklyGoals.store_message [] "1700.1" "user" "ok lock it in"
               "weekly_goals" 5)
             "1700.1" "assistant"
             ("Week focus\nSquat 3x" ++ "\n\n" ++
               ("Saved weekly goals to s3://" ++
                 ("weekly-goals/" ++
                   WeeklyGoals.firstLineStripped "Week focus\nSquat 3x")))
             "weekly_goals" 6
         | none => []),
        [] ++ [⟨WeeklyGoals.firstLineStripped "Week focus\nSquat 3x",
          "Week focus\nSquat 3x"⟩]⟩ ∧
    (wgDocs (WeeklyGoals.handle_thread_reply "ok lock it in" (some "1700.1")
        (.ok "data") (.ok "Week focus v2\nBench 3x") (.ok (some "1701.0"))
        "chan" (some "conv") []
        (wgDocs (WeeklyGoals.handle_thread_reply "ok lock it in"
          (some "1700.1") (.ok "data") (.ok "Week focus\nSquat 3x")
          (.ok (some "1700.9")) "chan" (some "conv") [] [] 5 6))
        7 8)).length = ([] : List GoalDoc).length + 2 :=
  C6_lock_in "ok lock it in" "1700.1" "data" "Week focus\nSquat 3x"
    "Week focus v2\nBench 3x" (some "1700.9") (some "1701.0") "chan"
    (some "conv") [] [] [] 5 6 7 8 (by decide) (by decide)

/-- C8.  Appending a finite sequence of records to a fresh thread under a
strictly increasing clock and then querying history returns exactly the
appended entries, in insertion order, with role and content preserved. -/
theorem C8_append_then_history (t : String)
    (msgs : List (Nat × String × String)) (tbl : List Record)
    (hfresh : ∀ r ∈ tbl, r.thread_id ≠ t)
    (hmono : List.Pairwise (fun a b => a.1 < b.1) msgs) :
    WeeklyGoals.get_history (WeeklyGoals.appendAll tbl t msgs) t =
      msgs.map (fun m => ⟨m.2.1, m.2.2⟩) ∧
    (WeeklyGoals.get_history (WeeklyGoals.appendAll tbl t msgs) t).length =
      msgs.length := by
  have hq := WeeklyGoals.queryAsc_appendAll t msgs tbl hmono
    (fun x hx hxt _ _ => absurd hxt (hfresh x hx))
  have hmain :
      WeeklyGoals.get_history (WeeklyGoals.appendAll tbl t msgs) t =
        msgs.map (fun m => ⟨m.2.1, m.2.2⟩) := by
    unfold WeeklyGoals.get_history
    rw [hq, queryAsc_eq_nil tbl t hfresh]
    simp [WeeklyGoals.mkRec]
  exact ⟨hmain, by rw [hmain]; simp⟩

/-- C8, witness: three appends to a fresh thread with increasing clock. -/
theorem C8_append_then_history_witness :
    WeeklyGoals.get_history
        (WeeklyGoals.appendAll [] "t1"
          [(1, "user", "a"), (2, "assistant", "b"), (5, "user", "c")]) "t1" =
      [⟨"user", "a"⟩, ⟨"assistant", "b"⟩, ⟨"user", "c"⟩] ∧
    (WeeklyGoals.get_history
        (WeeklyGoals.appendAll [] "t1"
          [(1, "user", "a"), (2, "assistant", "b"), (5, "user", "c")])
        "t1").length = 3 :=
  C8_append_then_history "t1"
    [(1, "user", "a"), (2, "assistant", "b"), (5, "user", "c")] []
    (by simp) (by decide)

/-- C9.  With configured secret "secret", the webhook receiver answers the
authorized example request with a 200 carrying `received` and the workoutId
and exactly one analyzer invocation with that workoutId; and any request
whose resolved authorization header is not "secret" (absent or different)
gets a 401 and triggers no invocation. -/
theorem C9_webhook :
    (∀ fn : String,
      HevyWebhook.handler (some "secret") (some fn)
          [("authorization", "secret")] (.parsed (some "123")) =
        (⟨200, .received "123"⟩, [(fn, "123")])) ∧
    (∀ (fnOpt : Option String) (headers : List (String × String))
        (body : HevyWebhook.WebhookBody),
      HevyWebhook.resolveAuth headers ≠ some "secret" →
      HevyWebhook.handler (some "secret") fnOpt headers body =
        (⟨401, .unauthorized⟩, [])) := by
  constructor
  · intro fn
    rfl
  · intro fnOpt headers body h
    unfold HevyWebhook.handler
    cases ha : HevyWebhook.resolveAuth headers with
    | none => simp
    | some v =>
      rw [ha] at h
      by_cases hv : v = ""
      · simp [hv]
      · have hne : ¬ (some v = some "secret") := h
        simp [hv, hne]

/-- C9, witness: the authorized example and a request with no
authorization header. -/
theorem C9_webhook_witness :
    HevyWebhook.handler (some "secret") (some "analyzer")
        [("authorization", "secret")] (.parsed (some "123")) =
      (⟨200, .received "123"⟩, [("analyzer", "123")]) ∧
    HevyWebhook.handler (some "secret") (some "analyzer") []
        (.parsed (some "123")) = (⟨401, .unauthorized⟩, []) :=
  ⟨C9_webhook.1 "analyzer",
   C9_webhook.2 (some "analyzer") [] (.parsed (some "123")) (by decide)⟩

/-- C10.  With a non-empty configured secret matched by the authorization
header, a body that parses to an object with an absent or empty
`payload.workoutId` gets a 400 with the Missing-workoutId error body and
triggers no downstream invocation. -/
theorem C10_missing_workout_id (secret : String) (fnOpt : Option String)
    (headers : List (String × String)) (wid : Option String)
    (hs : secret ≠ "")
    (ha : HevyWebhook.resolveAuth headers = some secret)
    (hw : wid = none ∨ wid = some "") :
    HevyWebhook.handler (some secret) fnOpt headers (.parsed wid) =
      (⟨400, .missingWorkoutId⟩, []) := by
  unfold HevyWebhook.handler
  rw [ha]
  rcases hw with rfl | rfl <;> simp [hs]

/-- C10, witness at a concrete authorized request with no workoutId. -/
theorem C10_missing_workout_id_witness :
    HevyWebhook.handler (some "secret") (some "analyzer")
        [("authorization", "secret")] (.parsed none) =
      (⟨400, .missingWorkoutId⟩, []) :=
  C10_missing_workout_id "secret" (some "analyzer")
    [("authorization", "secret")] none (by decide) (by decide)
    (Or.inl rfl)
